import Mathlib

/-!
Verification of the audio-graph engine in
`dart_vst_graph/native/src/graph.cpp`.

The C++ code is shallowly embedded: IEEE `float` samples are modelled as
exact rationals (`ℚ`), raw pointers to sample buffers as
`Option (List Sample)` (`none` is the null pointer), and the graph's
mutable state as an explicit `GraphImpl` record threaded through the
operations.  Out-of-bounds vector indexing (undefined behaviour in the
source) is modelled by returning `none` from `GraphImpl.process`.
The externally hosted plug-in (`DVH_Plugin`, driven through the
`dart_vst_host` collaborator) is abstracted as a bundle of response
functions (`VstBehavior`); no claim below depends on its internals.
The conversion `10^(dB/20)` from decibels to a linear factor is kept as
an explicit function argument `dbToAmp`, since its value is irrational
and no claim depends on it.
-/

/-- Audio samples: exact rationals standing in for IEEE `float`. -/
abbrev Sample := ℚ

/-- Abstract behaviour of one externally hosted plug-in instance
(`DVH_Plugin`): responses of `dvh_process_stereo_f32`, `dvh_note_on`
and `dvh_note_off` for the wrapped instance. -/
structure VstBehavior where
  processFn : Option (List Sample) → Option (List Sample) → Nat → List Sample × List Sample × Int
  noteOnFn : Int → Int → Sample → Int
  noteOffFn : Int → Int → Sample → Int

/-- Graph nodes (`struct Node` and its subclasses in graph.cpp).
`mixer` carries `MixerNode`'s `inputsL`/`inputsR` pointer vectors and
`gains`; `gain` carries `GainNode`'s `gdb` (gain in dB). -/
inductive Node where
  | vst (b : VstBehavior)
  | mixer (inputsL inputsR : List (Option (List Sample))) (gains : List Sample)
  | split
  | gain (gdb : Sample)

/-- `MixerNode::MixerNode(int n)`: `n` null input slots, unit gains. -/
def mkMixer (n : Nat) : Node :=
  Node.mixer (List.replicate n none) (List.replicate n none) (List.replicate n 1)

/-- `Node::process` dispatch.  `VstNode` forwards to the plug-in;
`MixerNode::process` zeroes the output then accumulates `in[i] * g`
over every slot whose two pointers are both non-null (the stereo
arguments are ignored); `SplitNode::process` copies its input or
silences; `GainNode::process` scales by `dbToAmp gdb` (the source's
`pow(10, gdb*0.05)`), emitting zeros for a null input. -/
def Node.process (dbToAmp : Sample → Sample) (nd : Node)
    (iL iR : Option (List Sample)) (n : Nat) : List Sample × List Sample × Int :=
  match nd with
  | .vst b => b.processFn iL iR n
  | .mixer mL mR gs =>
      let step := fun (acc : List Sample × List Sample)
          (t : (Option (List Sample) × Option (List Sample)) × Sample) =>
        match t with
        | ((some l, some r), g) =>
            (List.zipWith (fun a x => a + x * g) acc.1 l,
             List.zipWith (fun a x => a + x * g) acc.2 r)
        | _ => acc
      let out := ((mL.zip mR).zip gs).foldl step
        (List.replicate n 0, List.replicate n 0)
      (out.1, out.2, 1)
  | .split =>
      match iL, iR with
      | some l, some r => (l.take n, r.take n, 1)
      | _, _ => (List.replicate n 0, List.replicate n 0, 1)
  | .gain gdb =>
      let g := dbToAmp gdb
      ((match iL with
        | some l => (l.take n).map (fun x => x * g)
        | none => List.replicate n 0),
       (match iR with
        | some r => (r.take n).map (fun x => x * g)
        | none => List.replicate n 0), 1)

/-- `Node::noteOn` dispatch: the base class returns 1 (success no-op,
inherited by Mixer/Split/Gain); `VstNode` forwards to the plug-in. -/
def Node.noteOn (nd : Node) (ch note : Int) (vel : Sample) : Int :=
  match nd with
  | .vst b => b.noteOnFn ch note vel
  | _ => 1

/-- `Node::noteOff` dispatch, symmetric to `Node.noteOn`. -/
def Node.noteOff (nd : Node) (ch note : Int) (vel : Sample) : Int :=
  match nd with
  | .vst b => b.noteOffFn ch note vel
  | _ => 1

/-- Declared input-port count of a node: a mixer declares its fixed
slot count (the size of its `inputsL` vector, set at construction);
split, gain and hosted VST nodes process a single stereo input bus
("one stereo bus per node" in the source). -/
def Node.declaredInPorts : Node → Nat
  | .mixer mL _ _ => mL.length
  | _ => 1

/-- `struct Conn`: a single edge slot, indexed by destination node. -/
structure Conn where
  src : Int
  dst : Int

/-- `struct RuntimeBuffer`: an owned stereo scratch buffer plus
optional external input pointers that override it when set. -/
structure RuntimeBuffer where
  L : List Sample
  R : List Sample
  inL : Option (List Sample)
  inR : Option (List Sample)

/-- `struct GraphImpl`: the node list, the per-destination edge table
and the designated io node handles (fields `sr`, `maxBlock`, `host`,
`transport` and the unused `latency` map play no role in the modelled
operations and are omitted). -/
structure GraphImpl where
  nodes : List Node
  edges : List Conn
  ioIn : Int
  ioOut : Int

/-- A freshly created graph (`dvh_graph_create`): no nodes, no edges,
io handles initialised to the -1 sentinel. -/
def freshGraph : GraphImpl := ⟨[], [], -1, -1⟩

/-- `GraphImpl::addNode`: append the node, resize the edge table to the
node count (new entries are default `Conn{-1,-1}`), return the index. -/
def GraphImpl.addNode (g : GraphImpl) (n : Node) : Nat × GraphImpl :=
  let nodes := g.nodes ++ [n]
  let edges := g.edges ++ List.replicate (nodes.length - g.edges.length) ⟨-1, -1⟩
  (nodes.length - 1, { g with nodes := nodes, edges := edges })

/-- `GraphImpl::setEdge`: reject out-of-range node handles, otherwise
overwrite destination `d`'s single edge slot. -/
def GraphImpl.setEdge (g : GraphImpl) (s d : Int) : Int × GraphImpl :=
  if s < 0 ∨ d < 0 ∨ (g.nodes.length : Int) ≤ s ∨ (g.nodes.length : Int) ≤ d then
    (0, g)
  else
    (1, { g with edges := g.edges.set d.toNat ⟨s, d⟩ })

/-- `GraphImpl::clearEdge`: reject an out-of-range destination,
otherwise clear destination `d`'s slot when it carries source `s`. -/
def GraphImpl.clearEdge (g : GraphImpl) (s d : Int) : Int × GraphImpl :=
  if d < 0 ∨ (g.edges.length : Int) ≤ d then (0, g)
  else
    let c := g.edges.getD d.toNat ⟨-1, -1⟩
    if c.src = s then
      (1, { g with edges := g.edges.set d.toNat ⟨-1, c.dst⟩ })
    else (1, g)

/-- `GraphImpl::process`: fresh zeroed scratch buffers, external input
pointers installed on the designated input node, one linear pass over
the nodes in index order (each node reads its single edge's source
buffer, with the source's external pointer taking precedence), then the
output node's buffer (last node when `ioOut < 0`) is copied out.
Out-of-bounds vector indexing — reachable in the source, where it is
undefined behaviour — yields `none`. -/
def GraphImpl.process (dbToAmp : Sample → Sample) (g : GraphImpl)
    (inL inR : Option (List Sample)) (n : Nat) :
    Option (List Sample × List Sample × Int) := do
  let bufs0 : List RuntimeBuffer :=
    List.replicate g.nodes.length ⟨List.replicate n 0, List.replicate n 0, none, none⟩
  let bufs1 ←
    if 0 ≤ g.ioIn then
      if g.ioIn.toNat < bufs0.length then
        some (bufs0.set g.ioIn.toNat ⟨List.replicate n 0, List.replicate n 0, inL, inR⟩)
      else none
    else some bufs0
  let bufs2 ← (List.range g.nodes.length).foldlM
    (fun (bufs : List RuntimeBuffer) i => do
      let c ← g.edges.get? i
      let srcs ←
        if 0 ≤ c.src then do
          let sb ← bufs.get? c.src.toNat
          pure (some (sb.inL.getD sb.L), some (sb.inR.getD sb.R))
        else
          pure ((none : Option (List Sample)), (none : Option (List Sample)))
      let b ← bufs.get? i
      let nd ← g.nodes.get? i
      let r := nd.process dbToAmp srcs.1 srcs.2 n
      pure (bufs.set i ⟨r.1, r.2.1, b.inL, b.inR⟩))
    bufs1
  let oidx : Int := if g.ioOut < 0 then (g.nodes.length : Int) - 1 else g.ioOut
  let ob ← if 0 ≤ oidx then bufs2.get? oidx.toNat else none
  pure ((ob.inL.getD ob.L).take n, (ob.inR.getD ob.R).take n, 1)

/-- `dvh_graph_clear` (on a live graph): drop all nodes and edges,
reset the io designation to -1, report success. -/
def dvh_graph_clear (g : GraphImpl) : Int × GraphImpl :=
  (1, { g with nodes := [], edges := [], ioIn := -1, ioOut := -1 })

/-- `dvh_graph_add_mixer`: reject a non-positive slot count, otherwise
add a `MixerNode` and hand back its id. -/
def dvh_graph_add_mixer (g : GraphImpl) (nin : Int) : Int × Option Nat × GraphImpl :=
  if nin ≤ 0 then (0, none, g)
  else
    let r := g.addNode (mkMixer nin.toNat)
    (1, some r.1, r.2)

/-- `dvh_graph_add_split`: add a `SplitNode`, hand back its id. -/
def dvh_graph_add_split (g : GraphImpl) : Int × Option Nat × GraphImpl :=
  let r := g.addNode Node.split
  (1, some r.1, r.2)

/-- `dvh_graph_add_gain`: add a `GainNode` at `db` dB, hand back its id. -/
def dvh_graph_add_gain (g : GraphImpl) (db : Sample) : Int × Option Nat × GraphImpl :=
  let r := g.addNode (Node.gain db)
  (1, some r.1, r.2)

/-- `dvh_graph_connect`: the port arguments `sb`/`db` are cast to void
and never read; the call is `setEdge(s, d)`. -/
def dvh_graph_connect (g : GraphImpl) (s _sb d _db : Int) : Int × GraphImpl :=
  g.setEdge s d

/-- `dvh_graph_disconnect`: ports likewise ignored; `clearEdge(s, d)`. -/
def dvh_graph_disconnect (g : GraphImpl) (s _sb d _db : Int) : Int × GraphImpl :=
  g.clearEdge s d

/-- `dvh_graph_set_io_nodes`: store both handles unconditionally and
report success. -/
def dvh_graph_set_io_nodes (g : GraphImpl) (inId outId : Int) : Int × GraphImpl :=
  (1, { g with ioIn := inId, ioOut := outId })

/-- `dvh_graph_note_on`: a handle inside `[0, nodes.size())` receives
the event alone and its handler's result is returned; any other handle
value falls into the broadcast loop over every node in index order,
with the per-node results discarded and 1 returned.  The first
component records which nodes' handlers were invoked, in order. -/
def dvh_graph_note_on (g : GraphImpl) (node ch note : Int) (vel : Sample) :
    List Nat × Int :=
  if 0 ≤ node ∧ node < (g.nodes.length : Int) then
    ([node.toNat], (g.nodes.getD node.toNat Node.split).noteOn ch note vel)
  else
    (List.range g.nodes.length, 1)

/-- `dvh_graph_note_off`, symmetric to `dvh_graph_note_on`. -/
def dvh_graph_note_off (g : GraphImpl) (node ch note : Int) (vel : Sample) :
    List Nat × Int :=
  if 0 ≤ node ∧ node < (g.nodes.length : Int) then
    ([node.toNat], (g.nodes.getD node.toNat Node.split).noteOff ch note vel)
  else
    (List.range g.nodes.length, 1)

/-- `GainNode::getParam`: the id argument is ignored; the stored dB
value is mapped back to the normalized range. -/
def GainNode.getParam (_id : Int) (gdb : Sample) : Sample :=
  (gdb + 60) / 60

/-- `GainNode::setParam`: the id argument is ignored; the normalized
value is mapped to dB and stored, and 1 is returned. -/
def GainNode.setParam (_id : Int) (v : Sample) (_gdb : Sample) : Int × Sample :=
  (1, v * 60 - 60)

/-- `GainNode::paramCount`: exactly one parameter. -/
def GainNode.paramCount : Int := 1

/-- `GainNode::paramInfo`: only index 0 is valid and describes
parameter id 0 ("Output Gain", unit "dB"). -/
def GainNode.paramInfo (idx : Int) : Option (Int × String × String) :=
  if idx = 0 then some (0, "Output Gain", "dB") else none

/-- The single source currently wired to destination node `d` (the -1
sentinel when none). -/
def GraphImpl.sourceOf (g : GraphImpl) (d : Nat) : Int :=
  (g.edges.getD d ⟨-1, -1⟩).src

/-! ## Concrete graphs used by the claims -/

/-- C1's graph before wiring: split #0, split #1, mixer #2 with two
declared input slots. -/
def c1Base : GraphImpl :=
  (dvh_graph_add_mixer (dvh_graph_add_split (dvh_graph_add_split freshGraph).2.2).2.2 2).2.2

/-- C1's graph after `connect(0,0,2,0)`, `connect(1,0,2,1)` and
`setIoNodes(0, 2)`: both sources wired to distinct mixer ports, node 0
designated external input, the mixer designated output. -/
def c1Graph : GraphImpl :=
  (dvh_graph_set_io_nodes
    (dvh_graph_connect (dvh_graph_connect c1Base 0 0 2 0).2 1 0 2 1).2 0 2).2

/-- C2's graph: one split node added, then `clear()`. -/
def c2Graph : GraphImpl := (dvh_graph_clear (dvh_graph_add_split freshGraph).2.2).2

/-- C3's graph: split #0 and mixer #1 with two declared input slots. -/
def c3Graph : GraphImpl :=
  (dvh_graph_add_mixer (dvh_graph_add_split freshGraph).2.2 2).2.2

/-- C4's graph: two split nodes, #0 created before #1. -/
def c4Graph : GraphImpl := (dvh_graph_add_split (dvh_graph_add_split freshGraph).2.2).2.2

/-- C6's graph of five nodes of mixed variants. -/
def c6Graph : GraphImpl :=
  (dvh_graph_add_gain (dvh_graph_add_split (dvh_graph_add_mixer
    (dvh_graph_add_gain (dvh_graph_add_split freshGraph).2.2 0).2.2 3).2.2).2.2 (-6)).2.2

/-- C7's graph: split #0 and gain #1; live handles are 0 and 1 only. -/
def c7Graph : GraphImpl := (dvh_graph_add_gain (dvh_graph_add_split freshGraph).2.2 0).2.2

/-- C8's graph: a single split node, so handle 0 is the only live one. -/
def c8Graph : GraphImpl := (dvh_graph_add_split freshGraph).2.2

/-! ## Claims -/

/-- C1: two distinct sources connected to two distinct ports of a
two-slot mixer with default unit gains are claimed to be summed
sample-for-sample at the mixer's output.  In the code both `connect`
calls report success, but the second overwrites the first (one edge
slot per destination node, the port arguments being discarded), and
`MixerNode::process` reads only its own never-assigned input pointer
vectors, so rendering a unit-amplitude external input through the wired
mixer yields all-zero output instead of the claimed sum `[1, 1, 1, 1]`. -/
theorem mixer_fanin_render_outputs_zero :
    (dvh_graph_connect c1Base 0 0 2 0).1 = 1 ∧
    (dvh_graph_connect (dvh_graph_connect c1Base 0 0 2 0).2 1 0 2 1).1 = 1 ∧
    GraphImpl.process (fun x => x) c1Graph (some [1, 1, 1, 1]) (some [1, 1, 1, 1]) 4
      = some ([0, 0, 0, 0], [0, 0, 0, 0], 1) := by
  decide

/-- C2: rendering a freshly created graph, or a graph right after
`clear()`, is claimed to write all zeros and report success.  With zero
nodes the code computes the output-buffer index
`(int)nodes.size() - 1 = -1` and reads `bufs[-1]`, an out-of-bounds
vector access (undefined behaviour), modelled here as `none` instead of
the claimed all-zero success. -/
theorem render_empty_graph_out_of_bounds :
    c2Graph.nodes.length = 0 ∧
    GraphImpl.process (fun x => x) c2Graph (some [1, 1, 1, 1]) (some [1, 1, 1, 1]) 4 = none ∧
    GraphImpl.process (fun x => x) freshGraph (some [1, 1, 1, 1]) (some [1, 1, 1, 1]) 4 = none := by
  decide

/-- C3 counterexample: `connect(0, 0, 1, 7)` targets port 7 of mixer
node 1, whose declared input-port count is 2, yet the call reports
success — refuting the claim that an out-of-range destination port
makes `connect` fail. -/
theorem connect_ignores_dest_port :
    (c3Graph.nodes.getD 1 Node.split).declaredInPorts = 2 ∧
    (dvh_graph_connect c3Graph 0 0 1 7).1 = 1 := by
  decide

/-- C3 amended: `connect` succeeds exactly when both node handles are
in range; the two port arguments are ignored entirely (any two calls
differing only in ports are equal); and a successful call leaves `s`
as the single source wired to destination node `d`, replacing any
prior source of that node regardless of port. -/
theorem connect_amended_contract (g : GraphImpl) (s sb d db sb' db' : Int)
    (hlen : g.edges.length = g.nodes.length) :
    ((dvh_graph_connect g s sb d db).1 = 1 ↔
      0 ≤ s ∧ s < (g.nodes.length : Int) ∧ 0 ≤ d ∧ d < (g.nodes.length : Int)) ∧
    dvh_graph_connect g s sb d db = dvh_graph_connect g s sb' d db' ∧
    ((dvh_graph_connect g s sb d db).1 = 1 →
      (dvh_graph_connect g s sb d db).2.sourceOf d.toNat = s) := by
  refine ⟨?_, rfl, ?_⟩
  · simp only [dvh_graph_connect, GraphImpl.setEdge]
    split_ifs with hc
    · simp only [show (0 : Int) ≠ 1 by decide, false_iff]
      omega
    · simp only [true_iff]
      omega
  · intro hsucc
    simp only [dvh_graph_connect, GraphImpl.setEdge, GraphImpl.sourceOf] at hsucc ⊢
    split_ifs at hsucc ⊢ with hc
    · simp at hsucc
    · have hd : d.toNat < g.edges.length := by omega
      simp only [List.getD_eq_getElem?_getD, List.getElem?_set_eq_of_lt _ hd,
        Option.getD_some]

/-- C3 amended, witnessed on `c3Graph` at `connect(0, 0, 1, 7)`. -/
theorem connect_amended_contract_witness :
    (dvh_graph_connect c3Graph 0 0 1 7).1 = 1 ∧
    (dvh_graph_connect c3Graph 0 0 1 7).2.sourceOf (1 : Int).toNat = 0 := by
  have h := connect_amended_contract c3Graph 0 0 1 7 5 6 (by decide)
  have hs : (dvh_graph_connect c3Graph 0 0 1 7).1 = 1 := h.1.mpr (by decide)
  exact ⟨hs, h.2.2 hs⟩

/-- C4: connecting a later-created node as the source of an
earlier-created node's port is claimed to be rejected at connect-time.
On the two-node graph the call `connect(1, 0, 0, 0)` — source created
after the destination — reports success and installs the edge. -/
theorem connect_later_source_accepted :
    (dvh_graph_connect c4Graph 1 0 0 0).1 = 1 ∧
    (dvh_graph_connect c4Graph 1 0 0 0).2.sourceOf 0 = 1 := by
  decide

/-- C5: for every normalized `v` in `[0, 1]`, `setParam` followed by
`getParam` on a Gain node returns `v` (exactly, in the rational model
of the `dB = v*60 - 60` mapping and its inverse). -/
theorem gain_param_roundtrip (id id' : Int) (v gdb : Sample)
    (h0 : 0 ≤ v) (h1 : v ≤ 1) :
    GainNode.getParam id' (GainNode.setParam id v gdb).2 = v := by
  simp only [GainNode.getParam, GainNode.setParam]
  ring

/-- C5, witnessed at `v = 1`. -/
theorem gain_param_roundtrip_witness :
    (0 : Sample) ≤ 1 ∧ (1 : Sample) ≤ 1 ∧
    GainNode.getParam 0 (GainNode.setParam 0 1 0).2 = 1 :=
  ⟨zero_le_one, le_refl 1, gain_param_roundtrip 0 0 1 0 zero_le_one (le_refl 1)⟩

/-- C6: `noteOn` with the broadcast target (handle -1) returns success
and invokes every node's handler exactly once, in creation order (the
invocation trace is `[0, 1, ..., N-1]`); the per-node handler results —
arbitrary for hosted-plugin nodes — are discarded, so individual
delivery failures are ignored. -/
theorem note_on_broadcast_each_node_once (g : GraphImpl) (ch note : Int) (vel : Sample) :
    (dvh_graph_note_on g (-1) ch note vel).2 = 1 ∧
    (dvh_graph_note_on g (-1) ch note vel).1 = List.range g.nodes.length ∧
    ∀ i, i < g.nodes.length → (dvh_graph_note_on g (-1) ch note vel).1.count i = 1 := by
  have hguard : ¬(0 ≤ (-1 : Int) ∧ (-1 : Int) < (g.nodes.length : Int)) := by omega
  have heq : dvh_graph_note_on g (-1) ch note vel = (List.range g.nodes.length, 1) := by
    simp only [dvh_graph_note_on, if_neg hguard]
  rw [heq]
  exact ⟨rfl, rfl, fun i hi =>
    List.count_eq_one_of_mem (List.nodup_range _) (List.mem_range.mpr hi)⟩

/-- C6, witnessed on the five-node graph `c6Graph`. -/
theorem note_on_broadcast_each_node_once_witness :
    (dvh_graph_note_on c6Graph (-1) 0 60 1).2 = 1 ∧
    (dvh_graph_note_on c6Graph (-1) 0 60 1).1.count 3 = 1 :=
  ⟨(note_on_broadcast_each_node_once c6Graph 0 60 1).1,
   (note_on_broadcast_each_node_once c6Graph 0 60 1).2.2 3 (by decide)⟩

/-- C7 counterexample: handle 5 is not live on the two-node graph
`c7Graph`, yet `noteOn(5, ...)` delivers the event to both nodes (the
invocation trace is `[0, 1]`) and returns success, instead of the
claimed InvalidHandle failure with no delivery. -/
theorem note_on_invalid_handle_broadcasts :
    (c7Graph.nodes.length : Int) ≤ 5 ∧
    dvh_graph_note_on c7Graph 5 0 60 1 = ([0, 1], 1) := by
  decide

/-- C7 amended: `noteOn` targeting a live non-negative handle delivers
to that node only and returns its handler's result; a non-negative
handle that is not live is not reported as InvalidHandle but treated
like broadcast — delivered to every node in creation order with the
call returning success. -/
theorem note_on_dispatch_amended (g : GraphImpl) (h ch note : Int) (vel : Sample) :
    (0 ≤ h → h < (g.nodes.length : Int) →
      dvh_graph_note_on g h ch note vel
        = ([h.toNat], (g.nodes.getD h.toNat Node.split).noteOn ch note vel)) ∧
    ((g.nodes.length : Int) ≤ h →
      dvh_graph_note_on g h ch note vel = (List.range g.nodes.length, 1)) := by
  constructor
  · intro h0 h1
    simp only [dvh_graph_note_on, if_pos (And.intro h0 h1)]
  · intro hge
    have hng : ¬(0 ≤ h ∧ h < (g.nodes.length : Int)) := by omega
    simp only [dvh_graph_note_on, if_neg hng]

/-- C7 amended, witnessed on `c7Graph` at the live handle 1 and the
dead handle 5. -/
theorem note_on_dispatch_amended_witness :
    dvh_graph_note_on c7Graph 1 0 60 1
      = ([(1 : Int).toNat], (c7Graph.nodes.getD (1 : Int).toNat Node.split).noteOn 0 60 1) ∧
    dvh_graph_note_on c7Graph 5 0 60 1 = (List.range c7Graph.nodes.length, 1) :=
  ⟨(note_on_dispatch_amended c7Graph 1 0 60 1).1 (by decide) (by decide),
   (note_on_dispatch_amended c7Graph 5 0 60 1).2 (by decide)⟩

/-- C8: the io designations are claimed to always reference live
handles.  `setIoNodes(5, 0)` on the one-node graph reports success and
stores the dead handle 5 as the designated input node; the next render
then indexes the buffer vector at 5 — out of bounds (undefined
behaviour), modelled as `none`. -/
theorem set_io_nodes_unvalidated :
    (dvh_graph_set_io_nodes c8Graph 5 0).1 = 1 ∧
    (dvh_graph_set_io_nodes c8Graph 5 0).2.ioIn = 5 ∧
    ((dvh_graph_set_io_nodes c8Graph 5 0).2.nodes.length : Int) ≤ 5 ∧
    GraphImpl.process (fun x => x) (dvh_graph_set_io_nodes c8Graph 5 0).2
      (some [1, 1]) (some [1, 1]) 2 = none := by
  decide

/-- C10: `GainNode`'s parameter accessors ignore the id argument: for
every id, `setParam` stores the same value and returns success, and
`getParam` reads back the same normalized value, even though the node
declares exactly one parameter, with id 0 ("Output Gain" in dB), and
rejects every other enumeration index. -/
theorem gain_param_ignores_id (id id' : Int) (v gdb : Sample) :
    GainNode.setParam id v gdb = GainNode.setParam id' v gdb ∧
    (GainNode.setParam id v gdb).1 = 1 ∧
    GainNode.getParam id gdb = GainNode.getParam id' gdb ∧
    GainNode.paramCount = 1 ∧
    GainNode.paramInfo 0 = some (0, "Output Gain", "dB") ∧
    GainNode.paramInfo 1 = none :=
  ⟨rfl, rfl, rfl, rfl, by decide, by decide⟩
